import Mathlib

/-!
Verification of the loan qualifier application.

The repository's `app.py` composes four qualification filters and two ratio
calculators imported from `qualifier.filters` and `qualifier.utils.calculators`.
Only `app.py` is present in the source tree, so the filters and calculators are
modelled from the specification; the pipeline `find_qualifying_loans` and the
save step `save_qualifying_loans` are embedded from `app.py` itself.

Numeric fields are modelled as rationals (Python floats used only for exact
small-magnitude arithmetic here), credit scores as integers.
-/

namespace LoanQualifier

/-- A bank rate-sheet row: ordered tuple
`[lender, max_loan_amount, max_ltv_ratio, max_dti_ratio, min_credit_score, interest_rate]`. -/
structure LoanRecord where
  lender : String
  max_loan_amount : ℚ
  max_ltv_ratio : ℚ
  max_dti_ratio : ℚ
  min_credit_score : ℤ
  interest_rate : ℚ
deriving DecidableEq, Repr

/-- Errors surfaced by the core. `DivisionError` signals a zero denominator in a
ratio calculation. -/
inductive AppError where
  | DivisionError
deriving DecidableEq, Repr

/-- Modelled from the spec: `calculate_monthly_debt_ratio` (from
`qualifier.utils.calculators`, absent from src/) returns `debt / income` and
fails with `DivisionError` when `income` is zero. -/
def calculate_monthly_debt_ratio (debt income : ℚ) : Except AppError ℚ :=
  if income = 0 then Except.error AppError.DivisionError
  else Except.ok (debt / income)

/-- Modelled from the spec: `calculate_loan_to_value_ratio` (from
`qualifier.utils.calculators`, absent from src/) returns `loan_amount / home_value`
and fails with `DivisionError` when `home_value` is zero. -/
def calculate_loan_to_value_ratio (loan_amount home_value : ℚ) : Except AppError ℚ :=
  if home_value = 0 then Except.error AppError.DivisionError
  else Except.ok (loan_amount / home_value)

/-- Predicate of the max-loan-size filter: the record's ceiling must be at least
the requested amount. -/
def max_loan_size_pred (loan_amount : ℚ) (r : LoanRecord) : Bool :=
  decide (loan_amount ≤ r.max_loan_amount)

/-- Predicate of the credit-score filter: the record's minimum must not exceed
the applicant's score. -/
def credit_score_pred (credit_score : ℤ) (r : LoanRecord) : Bool :=
  decide (r.min_credit_score ≤ credit_score)

/-- Predicate of the debt-to-income filter: the applicant's ratio must be at or
under the record's DTI ceiling. -/
def debt_to_income_pred (monthly_debt_ratio : ℚ) (r : LoanRecord) : Bool :=
  decide (monthly_debt_ratio ≤ r.max_dti_ratio)

/-- Predicate of the loan-to-value filter: the applicant's ratio must be at or
under the record's LTV ceiling. -/
def loan_to_value_pred (loan_to_value_ratio : ℚ) (r : LoanRecord) : Bool :=
  decide (loan_to_value_ratio ≤ r.max_ltv_ratio)

/-- Modelled from the spec: `filter_max_loan_size` (from
`qualifier.filters.max_loan_size`, absent from src/) keeps records where
`record.max_loan_amount >= requested_loan_amount`. -/
def filter_max_loan_size (loan_amount : ℚ) (bank_list : List LoanRecord) : List LoanRecord :=
  bank_list.filter (max_loan_size_pred loan_amount)

/-- Modelled from the spec: `filter_credit_score` (from
`qualifier.filters.credit_score`, absent from src/) keeps records where
`record.min_credit_score <= applicant.credit_score`. -/
def filter_credit_score (credit_score : ℤ) (bank_list : List LoanRecord) : List LoanRecord :=
  bank_list.filter (credit_score_pred credit_score)

/-- Modelled from the spec: `filter_debt_to_income` (from
`qualifier.filters.debt_to_income`, absent from src/) keeps records where
`record.max_dti_ratio >= applicant_monthly_debt_ratio`. -/
def filter_debt_to_income (monthly_debt_ratio : ℚ) (bank_list : List LoanRecord) : List LoanRecord :=
  bank_list.filter (debt_to_income_pred monthly_debt_ratio)

/-- Modelled from the spec: `filter_loan_to_value` (from
`qualifier.filters.loan_to_value`, absent from src/) keeps records where
`record.max_ltv_ratio >= applicant_loan_to_value_ratio`. -/
def filter_loan_to_value (loan_to_value_ratio : ℚ) (bank_list : List LoanRecord) : List LoanRecord :=
  bank_list.filter (loan_to_value_pred loan_to_value_ratio)

/-- Embeds `find_qualifying_loans` from `app.py`: computes both ratios, then
applies the four filters in the stated order. A `DivisionError` raised by a
calculator aborts the run before any filtering. -/
def find_qualifying_loans (bank_data : List LoanRecord) (credit_score : ℤ)
    (debt income loan home_value : ℚ) : Except AppError (List LoanRecord) :=
  match calculate_monthly_debt_ratio debt income with
  | Except.error e => Except.error e
  | Except.ok monthly_debt_ratio =>
    match calculate_loan_to_value_ratio loan home_value with
    | Except.error e => Except.error e
    | Except.ok loan_to_value_ratio =>
      let bank_data_filtered := filter_max_loan_size loan bank_data
      let bank_data_filtered := filter_credit_score credit_score bank_data_filtered
      let bank_data_filtered := filter_debt_to_income monthly_debt_ratio bank_data_filtered
      let bank_data_filtered := filter_loan_to_value loan_to_value_ratio bank_data_filtered
      Except.ok bank_data_filtered

/-- Instrumented variant of `find_qualifying_loans` that also records every
intermediate candidate set produced by a filter stage, in order of application.
An empty trace means no filter ever ran. -/
def find_qualifying_loans_stages (bank_data : List LoanRecord) (credit_score : ℤ)
    (debt income loan home_value : ℚ) :
    List (List LoanRecord) × Except AppError (List LoanRecord) :=
  match calculate_monthly_debt_ratio debt income with
  | Except.error e => ([], Except.error e)
  | Except.ok monthly_debt_ratio =>
    match calculate_loan_to_value_ratio loan home_value with
    | Except.error e => ([], Except.error e)
    | Except.ok loan_to_value_ratio =>
      let s1 := filter_max_loan_size loan bank_data
      let s2 := filter_credit_score credit_score s1
      let s3 := filter_debt_to_income monthly_debt_ratio s2
      let s4 := filter_loan_to_value loan_to_value_ratio s3
      ([s1, s2, s3, s4], Except.ok s4)

/-- Observable effects of the save step: the exit message (if the run was
terminated), whether the user was prompted to save, and whether a file was
written. -/
structure SaveEffects where
  exitMessage : Option String
  promptedToSave : Bool
  wroteFile : Bool
deriving DecidableEq, Repr

/-- Embeds `save_qualifying_loans` from `app.py`: on an empty list it exits
with a message before any prompt; otherwise it asks the user to confirm and
writes only on a positive answer. `confirmAnswer` stands for the user's reply
to the confirmation prompt. -/
def save_qualifying_loans (qualifying_loans : List LoanRecord) (confirmAnswer : Bool) :
    SaveEffects :=
  if qualifying_loans.isEmpty then
    { exitMessage := some "Sorry, there are no qualifying loans!"
      promptedToSave := false
      wroteFile := false }
  else
    { exitMessage := none
      promptedToSave := true
      wroteFile := confirmAnswer }

/-- Applies a list of filter predicates in order, each narrowing the candidate
set, exactly as the pipeline threads `bank_data_filtered` through its stages. -/
def applyFilters (preds : List (LoanRecord → Bool)) (l : List LoanRecord) : List LoanRecord :=
  preds.foldl (fun acc p => acc.filter p) l

/-- The four pipeline predicates in the order stated by `find_qualifying_loans`:
max loan size, credit score, DTI, LTV. -/
def pipelinePreds (credit_score : ℤ) (loan monthly_debt_ratio loan_to_value_ratio : ℚ) :
    List (LoanRecord → Bool) :=
  [max_loan_size_pred loan, credit_score_pred credit_score,
   debt_to_income_pred monthly_debt_ratio, loan_to_value_pred loan_to_value_ratio]

/-- A sample bank record used for concrete witnesses: a lender with a loan
ceiling of 100. -/
def sampleRecord : LoanRecord :=
  { lender := "BankA", max_loan_amount := 100, max_ltv_ratio := 4/5,
    max_dti_ratio := 2/5, min_credit_score := 600, interest_rate := 7/2 }

theorem applyFilters_cons (p : LoanRecord → Bool) (ps : List (LoanRecord → Bool))
    (l : List LoanRecord) : applyFilters (p :: ps) l = applyFilters ps (l.filter p) :=
  rfl

theorem applyFilters_eq_filter_all (ps : List (LoanRecord → Bool)) (l : List LoanRecord) :
    applyFilters ps l = l.filter (fun r => ps.all (fun p => p r)) := by
  induction ps generalizing l with
  | nil =>
    simp [applyFilters]
  | cons p ps ih =>
    rw [applyFilters_cons, ih, List.filter_filter]
    congr 1
    funext r
    simp [Bool.and_comm]

theorem applyFilters_perm (ps qs : List (LoanRecord → Bool)) (l : List LoanRecord)
    (h : List.Perm ps qs) : applyFilters ps l = applyFilters qs l := by
  rw [applyFilters_eq_filter_all, applyFilters_eq_filter_all]
  congr 1
  funext r
  rw [Bool.eq_iff_iff]
  simp only [List.all_eq_true]
  constructor
  · intro hall p hp
    exact hall p (h.mem_iff.mpr hp)
  · intro hall p hp
    exact hall p (h.mem_iff.mp hp)

theorem filter_self_idem (p : LoanRecord → Bool) (l : List LoanRecord) :
    (l.filter p).filter p = l.filter p := by
  induction l with
  | nil => rfl
  | cons a t ih => cases hpa : p a <;> simp [List.filter_cons, hpa, ih]

/-- C1: the max-loan-size filter keeps exactly the records whose
`max_loan_amount` is greater than or equal to the requested loan amount. -/
theorem filter_max_loan_size_mem (loan_amount : ℚ) (bank_list : List LoanRecord)
    (r : LoanRecord) :
    r ∈ filter_max_loan_size loan_amount bank_list ↔
      r ∈ bank_list ∧ r.max_loan_amount ≥ loan_amount := by
  simp [filter_max_loan_size, max_loan_size_pred, List.mem_filter, ge_iff_le]

/-- C2: the credit-score filter keeps exactly the records whose
`min_credit_score` is less than or equal to the applicant's credit score; the
boundary is inclusive, so equality qualifies. -/
theorem filter_credit_score_mem (credit_score : ℤ) (bank_list : List LoanRecord)
    (r : LoanRecord) :
    r ∈ filter_credit_score credit_score bank_list ↔
      r ∈ bank_list ∧ r.min_credit_score ≤ credit_score := by
  simp [filter_credit_score, credit_score_pred, List.mem_filter]

/-- C3: for positive income the monthly debt ratio is exactly `debt / income`,
and zero income fails with `DivisionError`. -/
theorem calculate_monthly_debt_ratio_spec (debt income : ℚ) :
    (0 < income → calculate_monthly_debt_ratio debt income = Except.ok (debt / income)) ∧
      calculate_monthly_debt_ratio debt 0 = Except.error AppError.DivisionError := by
  constructor
  · intro h
    simp [calculate_monthly_debt_ratio, h.ne']
  · simp [calculate_monthly_debt_ratio]

theorem calculate_monthly_debt_ratio_spec_witness :
    calculate_monthly_debt_ratio 2000 6000 = Except.ok (1/3 : ℚ) := by
  have h := (calculate_monthly_debt_ratio_spec 2000 6000).1 (by norm_num)
  rw [h]
  norm_num

/-- C4: for positive home value the loan-to-value ratio is exactly
`loan / home_value`, and zero home value fails with `DivisionError`. -/
theorem calculate_loan_to_value_ratio_spec (loan home_value : ℚ) :
    (0 < home_value →
      calculate_loan_to_value_ratio loan home_value = Except.ok (loan / home_value)) ∧
      calculate_loan_to_value_ratio loan 0 = Except.error AppError.DivisionError := by
  constructor
  · intro h
    simp [calculate_loan_to_value_ratio, h.ne']
  · simp [calculate_loan_to_value_ratio]

theorem calculate_loan_to_value_ratio_spec_witness :
    calculate_loan_to_value_ratio 300000 400000 = Except.ok (3/4 : ℚ) := by
  have h := (calculate_loan_to_value_ratio_spec 300000 400000).1 (by norm_num)
  rw [h]
  norm_num

/-- C5: applying the four pipeline predicates in any permutation of the stated
order yields the same final filtered sequence as the stated order
(max loan size, then credit score, then DTI, then LTV). -/
theorem pipeline_order_invariant (credit_score : ℤ) (loan mdr ltv : ℚ)
    (ps : List (LoanRecord → Bool)) (l : List LoanRecord)
    (h : List.Perm ps (pipelinePreds credit_score loan mdr ltv)) :
    applyFilters ps l =
      filter_loan_to_value ltv (filter_debt_to_income mdr
        (filter_credit_score credit_score (filter_max_loan_size loan l))) := by
  rw [applyFilters_perm _ _ _ h]
  rfl

theorem pipeline_order_invariant_witness :
    applyFilters [credit_score_pred 650, max_loan_size_pred 90,
        debt_to_income_pred (1/3), loan_to_value_pred (3/4)] [sampleRecord] =
      filter_loan_to_value (3/4) (filter_debt_to_income (1/3)
        (filter_credit_score 650 (filter_max_loan_size 90 [sampleRecord]))) :=
  pipeline_order_invariant 650 90 (1/3) (3/4) _ [sampleRecord]
    (List.Perm.swap (max_loan_size_pred 90) (credit_score_pred 650)
      [debt_to_income_pred (1/3), loan_to_value_pred (3/4)])

/-- C6: each of the four filters returns a sublist of its input, so the
surviving records keep their relative input order; the input list itself is an
immutable value in this embedding, never mutated. -/
theorem filters_stable (loan_amount : ℚ) (credit_score : ℤ) (mdr ltv : ℚ)
    (l : List LoanRecord) :
    List.Sublist (filter_max_loan_size loan_amount l) l ∧
    List.Sublist (filter_credit_score credit_score l) l ∧
    List.Sublist (filter_debt_to_income mdr l) l ∧
    List.Sublist (filter_loan_to_value ltv l) l :=
  ⟨List.filter_sublist l, List.filter_sublist l, List.filter_sublist l, List.filter_sublist l⟩

/-- C7 as stated is false: lowering the requested loan amount loosens the
max-loan-size filter. Lowering the request from 200 to 50 on a record with
ceiling 100 grows the output from 0 records to 1. -/
theorem lowering_request_grows_output :
    (filter_max_loan_size 200 [sampleRecord]).length <
      (filter_max_loan_size 50 [sampleRecord]).length := by
  decide

/-- C7 amended: tightening the max-loan-size threshold means raising the
requested loan amount, and doing so never increases the number of records in
the filter's output. -/
theorem raising_request_never_grows_output (a b : ℚ) (l : List LoanRecord) (h : a ≤ b) :
    (filter_max_loan_size b l).length ≤ (filter_max_loan_size a l).length := by
  apply List.Sublist.length_le
  apply List.monotone_filter_right
  intro r hr
  simp only [max_loan_size_pred, decide_eq_true_eq] at hr ⊢
  exact le_trans h hr

theorem raising_request_never_grows_output_witness :
    (filter_max_loan_size 200 [sampleRecord]).length ≤
      (filter_max_loan_size 50 [sampleRecord]).length :=
  raising_request_never_grows_output 50 200 [sampleRecord] (by norm_num)

/-- C8: re-applying any of the four filters with the same threshold to its own
output returns that output unchanged. -/
theorem filters_idempotent (loan_amount : ℚ) (credit_score : ℤ) (mdr ltv : ℚ)
    (l : List LoanRecord) :
    filter_max_loan_size loan_amount (filter_max_loan_size loan_amount l) =
      filter_max_loan_size loan_amount l ∧
    filter_credit_score credit_score (filter_credit_score credit_score l) =
      filter_credit_score credit_score l ∧
    filter_debt_to_income mdr (filter_debt_to_income mdr l) =
      filter_debt_to_income mdr l ∧
    filter_loan_to_value ltv (filter_loan_to_value ltv l) =
      filter_loan_to_value ltv l :=
  ⟨filter_self_idem _ _, filter_self_idem _ _, filter_self_idem _ _, filter_self_idem _ _⟩

/-- C9: with zero qualifying loans — in particular after filtering an empty
bank-record list, which yields an empty result — the save step exits with the
informational message, never prompts to save, and writes nothing. -/
theorem save_empty_no_prompt_no_write (qualifying_loans : List LoanRecord)
    (confirmAnswer : Bool) (credit_score : ℤ) (debt income loan home_value : ℚ)
    (h : qualifying_loans = []) (hi : income ≠ 0) (hh : home_value ≠ 0) :
    save_qualifying_loans qualifying_loans confirmAnswer =
      { exitMessage := some "Sorry, there are no qualifying loans!"
        promptedToSave := false
        wroteFile := false } ∧
    find_qualifying_loans [] credit_score debt income loan home_value = Except.ok [] := by
  constructor
  · subst h
    rfl
  · simp [find_qualifying_loans, calculate_monthly_debt_ratio,
      calculate_loan_to_value_ratio, hi, hh, filter_max_loan_size,
      filter_credit_score, filter_debt_to_income, filter_loan_to_value]

theorem save_empty_no_prompt_no_write_witness :
    save_qualifying_loans [] true =
      { exitMessage := some "Sorry, there are no qualifying loans!"
        promptedToSave := false
        wroteFile := false } ∧
    find_qualifying_loans [] 650 2000 6000 300000 400000 = Except.ok [] :=
  save_empty_no_prompt_no_write [] true 650 2000 6000 300000 400000 rfl
    (by norm_num) (by norm_num)

/-- C10: with zero income the pipeline fails with `DivisionError` before any of
the four filters runs: the stage trace is empty and no filtered result is
produced. -/
theorem zero_income_aborts_before_filtering (bank_data : List LoanRecord)
    (credit_score : ℤ) (debt loan home_value : ℚ) :
    find_qualifying_loans_stages bank_data credit_score debt 0 loan home_value =
      ([], Except.error AppError.DivisionError) ∧
    find_qualifying_loans bank_data credit_score debt 0 loan home_value =
      Except.error AppError.DivisionError := by
  constructor <;> rfl

end LoanQualifier
